import Mathlib

/-!
Verification development for the darcy-n8n-bridge repository.

The Python source under `app/` is shallowly embedded here:
`app/settings.py` (allowlist parsing), `app/tracking.py` (the bounded
run tracker), `app/n8n_client.py` (the client error record), and
`app/n8n_tools.py` (the tool registry: argument validation, allowlist
enforcement, response filtering, identifier extraction, and error
translation).

JSON values manipulated by the handlers are modelled by the inductive
type `JVal`; Python `dict`s are association lists with first-occurrence
lookup, Python truthiness is `truthy`, and `x or y` is `pyOr`.
-/

/-- A JSON value as produced by parsing an upstream n8n response.
Python `None` (JSON `null`) is `JVal.null`; a missing dictionary key is
also reported as `JVal.null` by `pyGet`, matching `dict.get`. -/
inductive JVal where
  | null : JVal
  | bool : Bool → JVal
  | int : Int → JVal
  | str : String → JVal
  | arr : List JVal → JVal
  | obj : List (String × JVal) → JVal

/-- Python truthiness of a JSON value (`bool(x)`). -/
def truthy : JVal → Bool
  | .null => false
  | .bool b => b
  | .int n => n != 0
  | .str s => s != ""
  | .arr xs => !xs.isEmpty
  | .obj fs => !fs.isEmpty

/-- Python `a or b` on JSON values: the first operand when truthy,
otherwise the second. -/
def pyOr (a b : JVal) : JVal := if truthy a then a else b

/-- Whether a value is Python `None`. -/
def JVal.isNull : JVal → Bool
  | .null => true
  | _ => false

/-- Python `dict.get(k)` on an association list: the first binding of
`k`, or `null` (Python `None`) when absent. -/
def pyGet (fields : List (String × JVal)) (k : String) : JVal :=
  match fields with
  | [] => .null
  | (k', v) :: rest => if k' == k then v else pyGet rest k

/-- Python `dict.get(k)` distinguishing absence from a stored `null`,
as pydantic's field lookup does. -/
def lookupField (fields : List (String × JVal)) (k : String) : Option JVal :=
  match fields with
  | [] => none
  | (k', v) :: rest => if k' == k then some v else lookupField rest k

/-- Python `d[k] = v` on an association list: replaces the first
binding of `k` in place (dicts keep insertion order), appending when
absent. -/
def setKey (fields : List (String × JVal)) (k : String) (v : JVal) : List (String × JVal) :=
  match fields with
  | [] => [(k, v)]
  | (k', v') :: rest => if k' == k then (k, v) :: rest else (k', v') :: setKey rest k v

/-- Python `isinstance(value, int)`: `True` for ints and also for
bools (`bool` is a subclass of `int`). -/
def isPyInt : JVal → Bool
  | .int _ => true
  | .bool _ => true
  | _ => false

/-- Python `str(value)` restricted to the scalar values that occur as
workflow/execution identifiers. The `repr`-style rendering Python uses
for composite values is not needed by any handler and is modelled by a
placeholder. -/
def pyStr : JVal → String
  | .null => "None"
  | .bool true => "True"
  | .bool false => "False"
  | .int n => toString n
  | .str s => s
  | .arr _ => "[unmodeled list repr]"
  | .obj _ => "[unmodeled dict repr]"

/-! ### String helpers modelling Python `str` methods -/

/-- Python whitespace for `str.strip()` (the ASCII subset actually
exercised by configuration strings). -/
def pyIsSpace (c : Char) : Bool :=
  c == ' ' || c == '\t' || c == '\n' || c == '\r' || c == '\x0b' || c == '\x0c'

/-- Python `str.strip()`: drop whitespace from both ends. -/
def pyStrip (s : String) : String :=
  String.mk (((s.data.dropWhile pyIsSpace).reverse.dropWhile pyIsSpace).reverse)

/-- Helper for `pySplit`: accumulate the current segment (reversed). -/
def pySplitAux (sep : Char) : List Char → List Char → List String
  | [], acc => [String.mk acc.reverse]
  | c :: cs, acc =>
    if c == sep then String.mk acc.reverse :: pySplitAux sep cs []
    else pySplitAux sep cs (c :: acc)

/-- Python `s.split(sep)` for a single-character separator: the empty
string yields `[""]`, and empty segments are kept. -/
def pySplit (sep : Char) (s : String) : List String := pySplitAux sep s.data []

/-- Leading-match test between two character lists. -/
def leadingMatch : List Char → List Char → Bool
  | [], _ => true
  | _ :: _, [] => false
  | a :: as, b :: bs => a == b && leadingMatch as bs

/-- Whether `sub` occurs contiguously in `l`. -/
def infixMatch (sub : List Char) : List Char → Bool
  | [] => leadingMatch sub []
  | c :: rest => leadingMatch sub (c :: rest) || infixMatch sub rest

/-- Python `sub in s` substring containment. -/
def strContains (s sub : String) : Bool := infixMatch sub.data s.data

/-- Python `str.lower()` (ASCII, as exercised by the error messages). -/
def strLower (s : String) : String := String.mk (s.data.map Char.toLower)

/-! ### `app/settings.py` -/

/-- Model of `Settings.parse_allowlist` (app/settings.py): `None` stays `None`;
a string is split on commas, each segment is stripped, blank segments
are dropped (the Python set comprehension is modelled by `dedup`), and
an empty result is normalized to `None` ("unrestricted"). -/
def parse_allowlist (value : Option String) : Option (List String) :=
  match value with
  | none => none
  | some v =>
    let items := (((pySplit ',' v).map pyStrip).filter (fun s => !(s == ""))).dedup
    if items.isEmpty then none else some items

/-! ### `app/tracking.py` -/

/-- A UTC timestamp as carried by `datetime.now(timezone.utc)`. -/
structure PyDatetime where
  year : Nat
  month : Nat
  day : Nat
  hour : Nat
  minute : Nat
  second : Nat
  microsecond : Nat

/-- Left-pad a decimal rendering with zeros. -/
def padZeros (width : Nat) (n : Nat) : String :=
  let s := toString n
  String.mk (List.replicate (width - s.length) '0') ++ s

/-- Python `datetime.isoformat()` for a UTC-aware value: the
microseconds part is omitted when zero, and the offset renders as
`+00:00`. -/
def isoformatUTC (d : PyDatetime) : String :=
  padZeros 4 d.year ++ "-" ++ padZeros 2 d.month ++ "-" ++ padZeros 2 d.day ++ "T" ++
    padZeros 2 d.hour ++ ":" ++ padZeros 2 d.minute ++ ":" ++ padZeros 2 d.second ++
    (if d.microsecond == 0 then "" else "." ++ padZeros 6 d.microsecond) ++ "+00:00"

/-- Model of `DarcyExecutionRecord` (app/tracking.py). -/
structure DarcyExecutionRecord where
  execution_id : Option String
  workflow_id : String
  payload : List (String × JVal)
  started_at : PyDatetime

/-- Model of `RunTracker` (app/tracking.py): a `deque(maxlen=max_entries)` whose
head holds the most recent record. The asyncio lock serializes the two
operations; in this sequential model each operation is already atomic. -/
structure RunTracker where
  maxEntries : Nat
  entries : List DarcyExecutionRecord

/-- The `max_entries` default of `RunTracker.__init__`. -/
def defaultMaxEntries : Nat := 200

/-- A tracker as freshly constructed by `RunTracker(max_entries)`. -/
def RunTracker.empty (m : Nat) : RunTracker := ⟨m, []⟩

/-- Model of `RunTracker.add_entry`: build a record stamped `now` and
`appendleft` it; a full deque silently drops its rightmost (oldest)
element, which `take maxEntries` models exactly. -/
def RunTracker.add_entry (t : RunTracker) (workflow_id : String)
    (execution_id : Option String) (payload : List (String × JVal))
    (now : PyDatetime) : RunTracker :=
  { t with entries := (⟨execution_id, workflow_id, payload, now⟩ :: t.entries).take t.maxEntries }

/-- Model of `RunTracker.list_entries`: `list(self._entries)` — a snapshot of
the buffer, most recent first. -/
def RunTracker.list_entries (t : RunTracker) : List DarcyExecutionRecord := t.entries

/-! ### `app/n8n_client.py` -/

/-- Model of `N8NClientError` (app/n8n_client.py): status code 0 marks a
network-level failure; `args` models `Exception.args` (the constructor
always stores the message there). The diagnostic `payload` attribute is
unused by the registry and omitted. -/
structure N8NClientError where
  status_code : Int
  args : List String

/-- Model of `str(error.args[0]) if error.args else "n8n client error"`. -/
def base_message (e : N8NClientError) : String := e.args.headD "n8n client error"

/-- Model of `N8NToolRegistry._friendly_error_message` (app/n8n_tools.py). -/
def friendly_error_message (e : N8NClientError) (tool : String) : String :=
  if e.status_code == 400 then
    if strContains (strLower (base_message e)) "trigger" then
      "n8n rejected the run: the workflow is missing a trigger node."
    else
      "n8n returned a bad request for " ++ tool ++ ": " ++ base_message e
  else if e.status_code == 401 then "n8n API rejected the credentials"
  else if e.status_code == 403 then "n8n API denied access to this resource"
  else if e.status_code == 404 then "Requested resource was not found in n8n"
  else if e.status_code == 0 then "Unable to reach n8n API"
  else "n8n error " ++ toString e.status_code ++ ": " ++ base_message e

/-! ### `app/n8n_tools.py`: allowlist predicates and response filtering -/

/-- Python truthiness of the registry's `self._allowlist`
(`Optional[Set[str]]`): `None` and the empty set are falsy. -/
def alTruthy : Option (List String) → Bool
  | none => false
  | some a => !a.isEmpty

/-- Model of `N8NToolRegistry._is_allowed_workflow`: extract
`item.get("id") or item.get("workflowId") or item.get("_id")`
(Python `or`, so falsy values are skipped); `None` means excluded,
otherwise test `str(workflow_id)` for allowlist membership. -/
def is_allowed_workflow (al : Option (List String)) (item : JVal) : Bool :=
  match al with
  | none => true
  | some a =>
    let wf := match item with
      | .obj fields => pyOr (pyOr (pyGet fields "id") (pyGet fields "workflowId")) (pyGet fields "_id")
      | _ => .null
    if wf.isNull then false else a.contains (pyStr wf)

/-- Model of `N8NToolRegistry._is_allowed_execution`: non-dict items are
excluded; the owning workflow is `item.get("workflowId") or
item.get("workflow_id")`, and `None` means excluded. -/
def is_allowed_execution (al : Option (List String)) (item : JVal) : Bool :=
  match al with
  | none => true
  | some a =>
    match item with
    | .obj fields =>
      let wf := pyOr (pyGet fields "workflowId") (pyGet fields "workflow_id")
      if wf.isNull then false else a.contains (pyStr wf)
    | _ => false

/-- One step of `N8NToolRegistry._update_counts`: overwrite key `c`
with the length when its current value is `isinstance(_, int)`. -/
def updateCountKey (fields : List (String × JVal)) (c : String) (len : Nat) : List (String × JVal) :=
  if isPyInt (pyGet fields c) then setKey fields c (.int (Int.ofNat len)) else fields

/-- Model of `N8NToolRegistry._update_counts`: overwrite each integer-valued
`count`, `total`, `totalCount` field with the filtered length. -/
def update_counts (fields : List (String × JVal)) (len : Nat) : List (String × JVal) :=
  updateCountKey (updateCountKey (updateCountKey fields "count" len) "total" len) "totalCount" len

/-- One iteration of the key loop shared by `_filter_workflows` and
`_filter_executions`: when `k` holds an array, replace it by its
filtered form and refresh the counts with the new length. -/
def filterKeyStep (keep : JVal → Bool) (fields : List (String × JVal)) (k : String) :
    List (String × JVal) :=
  match pyGet fields k with
  | .arr v =>
    let f := v.filter keep
    update_counts (setKey fields k (.arr f)) f.length
  | _ => fields

/-- Model of `N8NToolRegistry._filter_workflows`: pass through when the
allowlist is falsy; filter arrays elementwise; for objects, clone and
run the key loop over `data`, `workflows`, `items`. -/
def filter_workflows (al : Option (List String)) (payload : JVal) : JVal :=
  if !alTruthy al then payload
  else
    match payload with
    | .arr xs => .arr (xs.filter (is_allowed_workflow al))
    | .obj fields =>
      .obj (List.foldl (filterKeyStep (is_allowed_workflow al)) fields ["data", "workflows", "items"])
    | p => p

/-- Model of `N8NToolRegistry._filter_executions`: as `_filter_workflows` but
with the execution membership test and the `executions` middle key. -/
def filter_executions (al : Option (List String)) (payload : JVal) : JVal :=
  if !alTruthy al then payload
  else
    match payload with
    | .arr xs => .arr (xs.filter (is_allowed_execution al))
    | .obj fields =>
      .obj (List.foldl (filterKeyStep (is_allowed_execution al)) fields ["data", "executions", "items"])
    | p => p

/-! ### `app/n8n_tools.py`: identifier extraction -/

/-- Model of `N8NToolRegistry._extract_execution_id`: first non-`None` value
among top-level `executionId`, `execution_id`, `id`, then (when `data`
is a dict) `data.executionId`, `data.id`; `str()` of the winner. -/
def extract_execution_id (payload : JVal) : Option String :=
  match payload with
  | .obj fields =>
    let v1 := pyGet fields "executionId"
    if !v1.isNull then some (pyStr v1)
    else
      let v2 := pyGet fields "execution_id"
      if !v2.isNull then some (pyStr v2)
      else
        let v3 := pyGet fields "id"
        if !v3.isNull then some (pyStr v3)
        else
          match pyGet fields "data" with
          | .obj d =>
            let w1 := pyGet d "executionId"
            if !w1.isNull then some (pyStr w1)
            else
              let w2 := pyGet d "id"
              if !w2.isNull then some (pyStr w2) else none
          | _ => none
  | _ => none

/-- Model of `N8NToolRegistry._extract_workflow_id_from_execution`:
`payload.get("workflowId") or payload.get("workflow_id")` (Python
`or`), falling back to the same lookup under a dict-valued `data`. -/
def extract_workflow_id_from_execution (payload : JVal) : Option String :=
  match payload with
  | .obj fields =>
    let v := pyOr (pyGet fields "workflowId") (pyGet fields "workflow_id")
    if !v.isNull then some (pyStr v)
    else
      match pyGet fields "data" with
      | .obj d =>
        let w := pyOr (pyGet d "workflowId") (pyGet d "workflow_id")
        if !w.isNull then some (pyStr w) else none
      | _ => none
  | _ => none

/-! ### `app/n8n_tools.py`: pydantic argument models

Each `parse*Args` function models pydantic validation of the
corresponding `BaseModel` with `extra = "forbid"`: unknown keys are
rejected, required fields must be present, values must carry the
annotated JSON type (strict-type reading of the annotations), and
`limit` must satisfy its `ge`/`le` bounds. -/

/-- Model of `ListWorkflowsArgs`. -/
structure ListWorkflowsArgs where
  limit : Int
  cursor : Option String
  active : Option Bool

/-- Model of `ListExecutionsArgs`. -/
structure ListExecutionsArgs where
  limit : Int
  cursor : Option String
  workflow_id : Option String

/-- Model of `GetWorkflowArgs`. -/
structure GetWorkflowArgs where
  workflow_id : String

/-- Model of `RunWorkflowArgs`. -/
structure RunWorkflowArgs where
  workflow_id : String
  payload : List (String × JVal)
  track : Bool

/-- Model of `GetExecutionArgs`. -/
structure GetExecutionArgs where
  execution_id : String

/-- Validate a bounded integer field with a default. -/
def parseLimitField (args : List (String × JVal)) (dflt : Int) : Except Unit Int :=
  match lookupField args "limit" with
  | none => .ok dflt
  | some (.int n) => if 1 ≤ n ∧ n ≤ 200 then .ok n else .error ()
  | some _ => .error ()

/-- Validate an `Optional[str]` field defaulting to `None`. -/
def parseOptStrField (args : List (String × JVal)) (k : String) : Except Unit (Option String) :=
  match lookupField args k with
  | none => .ok none
  | some .null => .ok none
  | some (.str s) => .ok (some s)
  | some _ => .error ()

/-- Validate an `Optional[bool]` field defaulting to `None`. -/
def parseOptBoolField (args : List (String × JVal)) (k : String) : Except Unit (Option Bool) :=
  match lookupField args k with
  | none => .ok none
  | some .null => .ok none
  | some (.bool b) => .ok (some b)
  | some _ => .error ()

/-- Validate a required `str` field. -/
def parseReqStrField (args : List (String × JVal)) (k : String) : Except Unit String :=
  match lookupField args k with
  | some (.str s) => .ok s
  | _ => .error ()

/-- Reject any argument key outside the model's field set
(`extra = "forbid"`). -/
def keysWithin (args : List (String × JVal)) (allowed : List String) : Bool :=
  args.all (fun kv => allowed.contains kv.1)

/-- Model of `ListWorkflowsArgs(**arguments)`. -/
def parseListWorkflowsArgs (args : List (String × JVal)) : Except Unit ListWorkflowsArgs :=
  if !keysWithin args ["limit", "cursor", "active"] then .error ()
  else do
    let limit ← parseLimitField args 50
    let cursor ← parseOptStrField args "cursor"
    let active ← parseOptBoolField args "active"
    .ok ⟨limit, cursor, active⟩

/-- Model of `ListExecutionsArgs(**arguments)`. -/
def parseListExecutionsArgs (args : List (String × JVal)) : Except Unit ListExecutionsArgs :=
  if !keysWithin args ["limit", "cursor", "workflow_id"] then .error ()
  else do
    let limit ← parseLimitField args 20
    let cursor ← parseOptStrField args "cursor"
    let workflow_id ← parseOptStrField args "workflow_id"
    .ok ⟨limit, cursor, workflow_id⟩

/-- Model of `GetWorkflowArgs(**arguments)`. -/
def parseGetWorkflowArgs (args : List (String × JVal)) : Except Unit GetWorkflowArgs :=
  if !keysWithin args ["workflow_id"] then .error ()
  else do
    let workflow_id ← parseReqStrField args "workflow_id"
    .ok ⟨workflow_id⟩

/-- Model of `RunWorkflowArgs(**arguments)`. -/
def parseRunWorkflowArgs (args : List (String × JVal)) : Except Unit RunWorkflowArgs :=
  if !keysWithin args ["workflow_id", "payload", "track"] then .error ()
  else do
    let workflow_id ← parseReqStrField args "workflow_id"
    let payload ← match lookupField args "payload" with
      | none => Except.ok []
      | some (.obj fs) => Except.ok fs
      | some _ => Except.error ()
    let track ← match lookupField args "track" with
      | none => Except.ok true
      | some (.bool b) => Except.ok b
      | some _ => Except.error ()
    .ok ⟨workflow_id, payload, track⟩

/-- Model of `GetExecutionArgs(**arguments)`. -/
def parseGetExecutionArgs (args : List (String × JVal)) : Except Unit GetExecutionArgs :=
  if !keysWithin args ["execution_id"] then .error ()
  else do
    let execution_id ← parseReqStrField args "execution_id"
    .ok ⟨execution_id⟩

/-- Model of `EmptyArgs(**arguments)`: `extra = "forbid"` with no fields — any
key at all is rejected. -/
def parseEmptyArgs (args : List (String × JVal)) : Except Unit Unit :=
  if args.isEmpty then .ok () else .error ()

/-! ### `app/n8n_tools.py`: the registry -/

/-- A dispatched invocation of the Remote API Client (an HTTP request
actually issued by `N8NClient`). -/
inductive RemoteCall where
  | listWorkflows (limit : Int) (cursor : Option String) (active : Option Bool)
  | getWorkflow (workflow_id : String)
  | runWorkflow (workflow_id : String) (payload : List (String × JVal))
  | listExecutions (limit : Int) (cursor : Option String) (workflow_id : Option String)
  | getExecution (execution_id : String)

/-- How a tool call fails. `toolExecutionError` is the recoverable
`ToolExecutionError` of app/utils.py; `validationError` is an uncaught
pydantic `ValidationError`; `typeError` is an uncaught Python
`TypeError`; `clientError` is an `N8NClientError` escaping a handler
(translated by `call_tool` before the registry returns). -/
inductive Failure where
  | toolExecutionError (msg : String)
  | validationError
  | typeError (msg : String)
  | clientError (e : N8NClientError)

/-- What one `call_tool` invocation did: the remote calls actually
dispatched, the tracker state afterwards, and the value the handler
passes to `as_mcp_text(format_json(..))` (or the failure). -/
structure HandlerOutcome where
  calls : List RemoteCall
  tracker : RunTracker
  result : Except Failure JVal

/-- The keyword names `_handle_list_workflows` passes to
`self._client.list_workflows(...)`. -/
def registryListWorkflowsKw : List String := ["limit", "cursor", "active"]

/-- The keyword-only parameters of `N8NClient.list_workflows`
(app/n8n_client.py), all without defaults. -/
def clientListWorkflowsKw : List String := ["limit", "offset", "active"]

/-- The keyword names `_handle_list_executions` passes to
`self._client.list_executions(...)`. -/
def registryListExecutionsKw : List String := ["limit", "cursor", "workflow_id"]

/-- The keyword-only parameters of `N8NClient.list_executions`
(app/n8n_client.py), all without defaults. -/
def clientListExecutionsKw : List String := ["limit", "offset", "workflow_id"]

/-- Python keyword binding for a call whose callee parameters are all
keyword-only and defaultless: the call raises `TypeError` unless the
passed names cover the parameters and introduce nothing unknown. -/
def kwNamesCompatible (passed accepted : List String) : Bool :=
  passed.all accepted.contains && accepted.all passed.contains

/-- Model of `N8NToolRegistry._ensure_workflow_allowed`: deny when the
allowlist is truthy and does not contain the identifier. -/
def ensure_workflow_allowed_denies (al : Option (List String)) (workflow_id : String) : Bool :=
  match al with
  | none => false
  | some a => !a.isEmpty && !a.contains workflow_id

/-- Truthiness of an `Optional[str]` (Python: `None` and `""` falsy). -/
def optStrTruthy : Option String → Bool
  | none => false
  | some s => !(s == "")

/-- Model of `N8NToolRegistry._handle_list_workflows`: parse, then invoke the
client. The invocation passes keyword `cursor` to a client method with
parameters `limit`/`offset`/`active`, so keyword binding raises
`TypeError` before any request is issued; had the names matched, the
response would be allowlist-filtered and returned. -/
def handle_list_workflows (al : Option (List String))
    (oracle : RemoteCall → Except N8NClientError JVal)
    (tracker : RunTracker) (args : List (String × JVal)) : HandlerOutcome :=
  match parseListWorkflowsArgs args with
  | .error _ => ⟨[], tracker, .error .validationError⟩
  | .ok a =>
    if !kwNamesCompatible registryListWorkflowsKw clientListWorkflowsKw then
      ⟨[], tracker, .error (.typeError "list_workflows got an unexpected keyword argument cursor")⟩
    else
      let call := RemoteCall.listWorkflows a.limit a.cursor a.active
      match oracle call with
      | .error e => ⟨[call], tracker, .error (.clientError e)⟩
      | .ok payload => ⟨[call], tracker, .ok (filter_workflows al payload)⟩

/-- Model of `N8NToolRegistry._handle_get_workflow`: parse, enforce the
allowlist, then fetch and return the workflow. -/
def handle_get_workflow (al : Option (List String))
    (oracle : RemoteCall → Except N8NClientError JVal)
    (tracker : RunTracker) (args : List (String × JVal)) : HandlerOutcome :=
  match parseGetWorkflowArgs args with
  | .error _ => ⟨[], tracker, .error .validationError⟩
  | .ok a =>
    if ensure_workflow_allowed_denies al a.workflow_id then
      ⟨[], tracker, .error (.toolExecutionError "Workflow is not permitted by the allowlist")⟩
    else
      let call := RemoteCall.getWorkflow a.workflow_id
      match oracle call with
      | .error e => ⟨[call], tracker, .error (.clientError e)⟩
      | .ok payload => ⟨[call], tracker, .ok payload⟩

/-- Model of `N8NToolRegistry._handle_run_workflow`: parse, enforce the
allowlist, run the workflow, extract a best-effort execution id,
record the run when tracking is on, and return the raw response. -/
def handle_run_workflow (al : Option (List String))
    (oracle : RemoteCall → Except N8NClientError JVal)
    (tracker : RunTracker) (now : PyDatetime) (args : List (String × JVal)) : HandlerOutcome :=
  match parseRunWorkflowArgs args with
  | .error _ => ⟨[], tracker, .error .validationError⟩
  | .ok a =>
    if ensure_workflow_allowed_denies al a.workflow_id then
      ⟨[], tracker, .error (.toolExecutionError "Workflow is not permitted by the allowlist")⟩
    else
      let call := RemoteCall.runWorkflow a.workflow_id a.payload
      match oracle call with
      | .error e => ⟨[call], tracker, .error (.clientError e)⟩
      | .ok payload =>
        let execId := extract_execution_id payload
        let tracker' := if a.track then tracker.add_entry a.workflow_id execId a.payload now
          else tracker
        ⟨[call], tracker', .ok payload⟩

/-- Model of `N8NToolRegistry._handle_list_executions`: parse, deny early when
an explicit workflow filter is truthy and outside the allowlist, then
invoke the client. As with workflow listing, the `cursor` keyword does
not match the client's `offset` parameter, so keyword binding raises
`TypeError` before any request; had it matched, the response would be
execution-filtered and returned. -/
def handle_list_executions (al : Option (List String))
    (oracle : RemoteCall → Except N8NClientError JVal)
    (tracker : RunTracker) (args : List (String × JVal)) : HandlerOutcome :=
  match parseListExecutionsArgs args with
  | .error _ => ⟨[], tracker, .error .validationError⟩
  | .ok a =>
    if alTruthy al && optStrTruthy a.workflow_id &&
        !((al.getD []).contains (a.workflow_id.getD "")) then
      ⟨[], tracker, .error (.toolExecutionError "Workflow is not permitted by the allowlist")⟩
    else if !kwNamesCompatible registryListExecutionsKw clientListExecutionsKw then
      ⟨[], tracker, .error (.typeError "list_executions got an unexpected keyword argument cursor")⟩
    else
      let call := RemoteCall.listExecutions a.limit a.cursor a.workflow_id
      match oracle call with
      | .error e => ⟨[call], tracker, .error (.clientError e)⟩
      | .ok payload => ⟨[call], tracker, .ok (filter_executions al payload)⟩

/-- Model of `N8NToolRegistry._handle_get_execution`: parse, fetch the
execution, then deny only when the allowlist is truthy and a truthy
workflow identifier extracted from the response lies outside it. -/
def handle_get_execution (al : Option (List String))
    (oracle : RemoteCall → Except N8NClientError JVal)
    (tracker : RunTracker) (args : List (String × JVal)) : HandlerOutcome :=
  match parseGetExecutionArgs args with
  | .error _ => ⟨[], tracker, .error .validationError⟩
  | .ok a =>
    let call := RemoteCall.getExecution a.execution_id
    match oracle call with
    | .error e => ⟨[call], tracker, .error (.clientError e)⟩
    | .ok payload =>
      let wf := extract_workflow_id_from_execution payload
      if alTruthy al && optStrTruthy wf && !((al.getD []).contains (wf.getD "")) then
        ⟨[call], tracker, .error (.toolExecutionError "Execution belongs to a workflow outside the allowlist")⟩
      else
        ⟨[call], tracker, .ok payload⟩

/-- Model of `N8NToolRegistry._handle_tracking_list`: each record rendered as a
dict with snake_case keys, `started_at` in ISO-8601 form. -/
def formatTrackingEntry (r : DarcyExecutionRecord) : JVal :=
  .obj [("workflow_id", .str r.workflow_id),
        ("execution_id", match r.execution_id with | some e => .str e | none => .null),
        ("payload", .obj r.payload),
        ("started_at", .str (isoformatUTC r.started_at))]

/-- Model of `N8NToolRegistry._handle_tracking_list`: reject any argument, then
render the tracker snapshot. -/
def handle_tracking_list (tracker : RunTracker) (args : List (String × JVal)) : HandlerOutcome :=
  match parseEmptyArgs args with
  | .error _ => ⟨[], tracker, .error .validationError⟩
  | .ok _ => ⟨[], tracker, .ok (.arr (tracker.list_entries.map formatTrackingEntry))⟩

/-- The `except N8NClientError` clause of `N8NToolRegistry.call_tool`:
a client error escaping a handler becomes a `ToolExecutionError` with
the friendly message; everything else passes through untouched. -/
def translateClientErrors (name : String) (o : HandlerOutcome) : HandlerOutcome :=
  match o.result with
  | .error (.clientError e) =>
    { o with result := .error (.toolExecutionError (friendly_error_message e name)) }
  | _ => o

/-- The tool names of `TOOL_DEFINITIONS` / `self._tool_handlers`. -/
def toolNames : List String :=
  ["n8n_list_workflows", "n8n_get_workflow", "n8n_run_workflow",
   "n8n_list_executions", "n8n_get_execution", "darcy_tracking_list"]

/-- Model of `N8NToolRegistry.call_tool`: dispatch by name (unknown names fail
with a `ToolExecutionError`), run the handler, and translate any
escaping `N8NClientError`. -/
def call_tool (al : Option (List String))
    (oracle : RemoteCall → Except N8NClientError JVal)
    (tracker : RunTracker) (now : PyDatetime)
    (name : String) (args : List (String × JVal)) : HandlerOutcome :=
  match name with
  | "n8n_list_workflows" => translateClientErrors name (handle_list_workflows al oracle tracker args)
  | "n8n_get_workflow" => translateClientErrors name (handle_get_workflow al oracle tracker args)
  | "n8n_run_workflow" => translateClientErrors name (handle_run_workflow al oracle tracker now args)
  | "n8n_list_executions" => translateClientErrors name (handle_list_executions al oracle tracker args)
  | "n8n_get_execution" => translateClientErrors name (handle_get_execution al oracle tracker args)
  | "darcy_tracking_list" => translateClientErrors name (handle_tracking_list tracker args)
  | _ => ⟨[], tracker, .error (.toolExecutionError ("Unknown tool: " ++ name))⟩

/-- Whether a result failed with the recoverable `ToolExecutionError`. -/
def isToolExecError : Except Failure JVal → Bool
  | .error (.toolExecutionError _) => true
  | _ => false

/-- A trivially successful remote oracle, used to instantiate closed
statements. -/
def oracle0 : RemoteCall → Except N8NClientError JVal := fun _ => .ok .null

/-- A concrete timestamp for closed statements. -/
def now0 : PyDatetime := ⟨2024, 1, 2, 3, 4, 5, 0⟩

/-- A fresh default tracker for closed statements. -/
def tracker0 : RunTracker := RunTracker.empty defaultMaxEntries

/-- The fields of an object value (empty for non-objects). -/
def objFields : JVal → List (String × JVal)
  | .obj fs => fs
  | _ => []

/-- Whether a value is a JSON array (`isinstance(value, list)`). -/
def isArrVal : JVal → Bool
  | .arr _ => true
  | _ => false

/-- The element list of a JSON array (empty for non-arrays). -/
def arrElems : JVal → List JVal
  | .arr v => v
  | _ => []

/-- Claim-side helper: the filtered length of the last of the keys
`data`, `midKey`, `items` (in that processing order) currently holding
an array — the length the count fields end up reflecting. -/
def lastFilteredLen (keep : JVal → Bool) (midKey : String)
    (fields : List (String × JVal)) : Option Nat :=
  if isArrVal (pyGet fields "items") then
    some ((arrElems (pyGet fields "items")).filter keep).length
  else if isArrVal (pyGet fields midKey) then
    some ((arrElems (pyGet fields midKey)).filter keep).length
  else if isArrVal (pyGet fields "data") then
    some ((arrElems (pyGet fields "data")).filter keep).length
  else none

/-! ## Helper lemmas on the dictionary operations -/

theorem pyGet_setKey_self (fs : List (String × JVal)) (k : String) (v : JVal) :
    pyGet (setKey fs k v) k = v := by
  induction fs with
  | nil => simp [setKey, pyGet]
  | cons kv rest ih =>
    obtain ⟨a, b⟩ := kv
    by_cases h : a = k
    · subst h
      simp [setKey, pyGet]
    · have hb : (a == k) = false := by simp [h]
      simp [setKey, pyGet, hb, ih]

theorem pyGet_setKey_ne (fs : List (String × JVal)) (k : String) (v : JVal) (q : String)
    (hne : q ≠ k) : pyGet (setKey fs k v) q = pyGet fs q := by
  induction fs with
  | nil =>
    have hb : (k == q) = false := by simp [Ne.symm hne]
    simp [setKey, pyGet, hb]
  | cons kv rest ih =>
    obtain ⟨a, b⟩ := kv
    by_cases h : a = k
    · subst h
      have hb : (a == q) = false := by simp [Ne.symm hne]
      simp [setKey, pyGet, hb]
    · have hb : (a == k) = false := by simp [h]
      by_cases h2 : a = q
      · subst h2
        simp [setKey, pyGet, hb]
      · have hb2 : (a == q) = false := by simp [h2]
        simp [setKey, pyGet, hb, hb2, ih]

theorem pyGet_updateCountKey_ne (fs : List (String × JVal)) (c : String) (L : Nat) (q : String)
    (hne : q ≠ c) : pyGet (updateCountKey fs c L) q = pyGet fs q := by
  rw [updateCountKey]
  by_cases hc : isPyInt (pyGet fs c) = true
  · rw [if_pos hc]
    exact pyGet_setKey_ne fs c _ q hne
  · rw [if_neg hc]

theorem pyGet_updateCountKey_self (fs : List (String × JVal)) (c : String) (L : Nat) :
    pyGet (updateCountKey fs c L) c =
      if isPyInt (pyGet fs c) = true then .int (Int.ofNat L) else pyGet fs c := by
  rw [updateCountKey]
  by_cases hc : isPyInt (pyGet fs c) = true
  · rw [if_pos hc, if_pos hc]
    exact pyGet_setKey_self fs c _
  · rw [if_neg hc, if_neg hc]

theorem pyGet_update_counts_ne (fs : List (String × JVal)) (L : Nat) (q : String)
    (h1 : q ≠ "count") (h2 : q ≠ "total") (h3 : q ≠ "totalCount") :
    pyGet (update_counts fs L) q = pyGet fs q := by
  rw [update_counts, pyGet_updateCountKey_ne _ _ _ _ h3, pyGet_updateCountKey_ne _ _ _ _ h2,
    pyGet_updateCountKey_ne _ _ _ _ h1]

theorem pyGet_update_counts_self (fs : List (String × JVal)) (L : Nat) (c : String)
    (hc : c = "count" ∨ c = "total" ∨ c = "totalCount") :
    pyGet (update_counts fs L) c =
      if isPyInt (pyGet fs c) = true then .int (Int.ofNat L) else pyGet fs c := by
  rcases hc with rfl | rfl | rfl
  · rw [update_counts, pyGet_updateCountKey_ne _ _ _ _ (by decide),
      pyGet_updateCountKey_ne _ _ _ _ (by decide), pyGet_updateCountKey_self]
  · rw [update_counts, pyGet_updateCountKey_ne _ _ _ _ (by decide),
      pyGet_updateCountKey_self, pyGet_updateCountKey_ne _ _ _ _ (by decide)]
  · rw [update_counts, pyGet_updateCountKey_self, pyGet_updateCountKey_ne _ _ _ _ (by decide),
      pyGet_updateCountKey_ne _ _ _ _ (by decide)]

theorem filterKeyStep_eq_of_notArr (keep : JVal → Bool) (fs : List (String × JVal)) (k : String)
    (hv : isArrVal (pyGet fs k) = false) : filterKeyStep keep fs k = fs := by
  rw [filterKeyStep]
  cases h : pyGet fs k with
  | arr v => rw [h] at hv; exact absurd hv (by simp [isArrVal])
  | null => rfl
  | bool b => rfl
  | int n => rfl
  | str s => rfl
  | obj o => rfl

theorem filterKeyStep_pyGet_self (keep : JVal → Bool) (fs : List (String × JVal)) (k : String)
    (hk1 : k ≠ "count") (hk2 : k ≠ "total") (hk3 : k ≠ "totalCount")
    (v : List JVal) (hv : pyGet fs k = .arr v) :
    pyGet (filterKeyStep keep fs k) k = .arr (v.filter keep) := by
  rw [filterKeyStep, hv]
  simp only
  rw [pyGet_update_counts_ne _ _ _ hk1 hk2 hk3, pyGet_setKey_self]

theorem filterKeyStep_pyGet_ne (keep : JVal → Bool) (fs : List (String × JVal)) (k : String)
    (q : String) (hq : q ≠ k) (hq1 : q ≠ "count") (hq2 : q ≠ "total") (hq3 : q ≠ "totalCount") :
    pyGet (filterKeyStep keep fs k) q = pyGet fs q := by
  rw [filterKeyStep]
  cases hv : pyGet fs k with
  | arr v =>
    simp only
    rw [pyGet_update_counts_ne _ _ _ hq1 hq2 hq3, pyGet_setKey_ne _ _ _ _ hq]
  | null => rfl
  | bool b => rfl
  | int n => rfl
  | str s => rfl
  | obj o => rfl

theorem filterKeyStep_pyGet_count_arr (keep : JVal → Bool) (fs : List (String × JVal))
    (k : String) (c : String) (v : List JVal) (hv : pyGet fs k = .arr v) (hkc : c ≠ k)
    (hc : c = "count" ∨ c = "total" ∨ c = "totalCount") :
    pyGet (filterKeyStep keep fs k) c =
      if isPyInt (pyGet fs c) = true then .int (Int.ofNat (v.filter keep).length)
      else pyGet fs c := by
  rw [filterKeyStep, hv]
  simp only
  rw [pyGet_update_counts_self _ _ _ hc, pyGet_setKey_ne _ _ _ _ hkc]

theorem filterKeyStep_isPyInt_count (keep : JVal → Bool) (fs : List (String × JVal))
    (k : String) (c : String) (hkc : c ≠ k)
    (hc : c = "count" ∨ c = "total" ∨ c = "totalCount") :
    isPyInt (pyGet (filterKeyStep keep fs k) c) = isPyInt (pyGet fs c) := by
  by_cases ha : isArrVal (pyGet fs k) = true
  · obtain ⟨v, hv⟩ : ∃ v, pyGet fs k = .arr v := by
      cases h : pyGet fs k with
      | arr v => exact ⟨v, rfl⟩
      | null => rw [h] at ha; exact absurd ha (by simp [isArrVal])
      | bool b => rw [h] at ha; exact absurd ha (by simp [isArrVal])
      | int n => rw [h] at ha; exact absurd ha (by simp [isArrVal])
      | str s => rw [h] at ha; exact absurd ha (by simp [isArrVal])
      | obj o => rw [h] at ha; exact absurd ha (by simp [isArrVal])
    rw [filterKeyStep_pyGet_count_arr keep fs k c v hv hkc hc]
    by_cases hi : isPyInt (pyGet fs c) = true
    · rw [if_pos hi, hi]; rfl
    · rw [if_neg hi]
  · rw [filterKeyStep_eq_of_notArr keep fs k (by simpa using ha)]

theorem lastFilteredLen_items (keep : JVal → Bool) (midKey : String)
    (fields : List (String × JVal)) (vi : List JVal) (hvi : pyGet fields "items" = .arr vi) :
    lastFilteredLen keep midKey fields = some (vi.filter keep).length := by
  rw [lastFilteredLen, hvi]
  rw [if_pos (by simp [isArrVal])]
  rfl

theorem lastFilteredLen_mid (keep : JVal → Bool) (midKey : String)
    (fields : List (String × JVal)) (hvi : isArrVal (pyGet fields "items") = false)
    (vm : List JVal) (hvm : pyGet fields midKey = .arr vm) :
    lastFilteredLen keep midKey fields = some (vm.filter keep).length := by
  rw [lastFilteredLen, hvi, hvm]
  rw [if_neg (by simp), if_pos (by simp [isArrVal])]
  rfl

theorem lastFilteredLen_data (keep : JVal → Bool) (midKey : String)
    (fields : List (String × JVal)) (hvi : isArrVal (pyGet fields "items") = false)
    (hvm : isArrVal (pyGet fields midKey) = false)
    (vd : List JVal) (hvd : pyGet fields "data" = .arr vd) :
    lastFilteredLen keep midKey fields = some (vd.filter keep).length := by
  rw [lastFilteredLen, hvi, hvm, hvd]
  rw [if_neg (by simp), if_neg (by simp), if_pos (by simp [isArrVal])]
  rfl

theorem lastFilteredLen_none (keep : JVal → Bool) (midKey : String)
    (fields : List (String × JVal)) (hvi : isArrVal (pyGet fields "items") = false)
    (hvm : isArrVal (pyGet fields midKey) = false)
    (hvd : isArrVal (pyGet fields "data") = false) :
    lastFilteredLen keep midKey fields = none := by
  rw [lastFilteredLen, hvi, hvm, hvd]
  rw [if_neg (by simp), if_neg (by simp), if_neg (by simp)]

theorem arr_or_not (x : JVal) : (∃ v, x = JVal.arr v) ∨ isArrVal x = false := by
  cases x with
  | arr v => exact Or.inl ⟨v, rfl⟩
  | null => exact Or.inr rfl
  | bool b => exact Or.inr rfl
  | int n => exact Or.inr rfl
  | str s => exact Or.inr rfl
  | obj o => exact Or.inr rfl

/-- Effect of the key loop of `_filter_workflows`/`_filter_executions`
on an object: each of the three listed keys holding an array is
replaced by its filtered form, and every integer-valued count field
ends up holding the filtered length of the last such key (unchanged
when no listed key holds an array). -/
theorem foldl_filter_block (keep : JVal → Bool) (midKey : String)
    (hm1 : midKey ≠ "data") (hm2 : midKey ≠ "items")
    (hmc1 : midKey ≠ "count") (hmc2 : midKey ≠ "total") (hmc3 : midKey ≠ "totalCount")
    (fields : List (String × JVal)) :
    (∀ v, pyGet fields "data" = .arr v →
      pyGet (List.foldl (filterKeyStep keep) fields ["data", midKey, "items"]) "data" =
        .arr (v.filter keep)) ∧
    (∀ v, pyGet fields midKey = .arr v →
      pyGet (List.foldl (filterKeyStep keep) fields ["data", midKey, "items"]) midKey =
        .arr (v.filter keep)) ∧
    (∀ v, pyGet fields "items" = .arr v →
      pyGet (List.foldl (filterKeyStep keep) fields ["data", midKey, "items"]) "items" =
        .arr (v.filter keep)) ∧
    (∀ c, (c = "count" ∨ c = "total" ∨ c = "totalCount") → isPyInt (pyGet fields c) = true →
      pyGet (List.foldl (filterKeyStep keep) fields ["data", midKey, "items"]) c =
        (match lastFilteredLen keep midKey fields with
         | some L => JVal.int (Int.ofNat L)
         | none => pyGet fields c)) := by
  have hfold : List.foldl (filterKeyStep keep) fields ["data", midKey, "items"] =
      filterKeyStep keep (filterKeyStep keep (filterKeyStep keep fields "data") midKey)
        "items" := rfl
  refine ⟨?_, ?_, ?_, ?_⟩
  · intro v hv
    rw [hfold]
    rw [filterKeyStep_pyGet_ne keep _ "items" "data" (by decide) (by decide) (by decide)
      (by decide)]
    rw [filterKeyStep_pyGet_ne keep _ midKey "data" (Ne.symm hm1) (by decide) (by decide)
      (by decide)]
    exact filterKeyStep_pyGet_self keep fields "data" (by decide) (by decide) (by decide) v hv
  · intro v hv
    rw [hfold]
    rw [filterKeyStep_pyGet_ne keep _ "items" midKey hm2 hmc1 hmc2 hmc3]
    have h1 : pyGet (filterKeyStep keep fields "data") midKey = .arr v := by
      rw [filterKeyStep_pyGet_ne keep fields "data" midKey hm1 hmc1 hmc2 hmc3]
      exact hv
    exact filterKeyStep_pyGet_self keep _ midKey hmc1 hmc2 hmc3 v h1
  · intro v hv
    rw [hfold]
    have h2 : pyGet (filterKeyStep keep (filterKeyStep keep fields "data") midKey) "items" =
        .arr v := by
      rw [filterKeyStep_pyGet_ne keep _ midKey "items" (Ne.symm hm2) (by decide) (by decide)
        (by decide)]
      rw [filterKeyStep_pyGet_ne keep fields "data" "items" (by decide) (by decide) (by decide)
        (by decide)]
      exact hv
    exact filterKeyStep_pyGet_self keep _ "items" (by decide) (by decide) (by decide) v h2
  · intro c hc hint
    have hcd : c ≠ "data" := by rcases hc with rfl | rfl | rfl <;> decide
    have hcm : c ≠ midKey := by
      rcases hc with rfl | rfl | rfl
      · exact Ne.symm hmc1
      · exact Ne.symm hmc2
      · exact Ne.symm hmc3
    have hci : c ≠ "items" := by rcases hc with rfl | rfl | rfl <;> decide
    have hIT : pyGet (filterKeyStep keep (filterKeyStep keep fields "data") midKey) "items" =
        pyGet fields "items" := by
      rw [filterKeyStep_pyGet_ne keep _ midKey "items" (Ne.symm hm2) (by decide) (by decide)
        (by decide)]
      rw [filterKeyStep_pyGet_ne keep fields "data" "items" (by decide) (by decide) (by decide)
        (by decide)]
    have hMT : pyGet (filterKeyStep keep fields "data") midKey = pyGet fields midKey :=
      filterKeyStep_pyGet_ne keep fields "data" midKey hm1 hmc1 hmc2 hmc3
    have hint1 : isPyInt (pyGet (filterKeyStep keep fields "data") c) = true := by
      rw [filterKeyStep_isPyInt_count keep fields "data" c hcd hc]
      exact hint
    have hint2 : isPyInt
        (pyGet (filterKeyStep keep (filterKeyStep keep fields "data") midKey) c) = true := by
      rw [filterKeyStep_isPyInt_count keep _ midKey c hcm hc]
      exact hint1
    rw [hfold]
    rcases arr_or_not (pyGet fields "items") with ⟨vi, hvi⟩ | hvi
    · rw [lastFilteredLen_items keep midKey fields vi hvi]
      rw [filterKeyStep_pyGet_count_arr keep _ "items" c vi (by rw [hIT]; exact hvi) hci hc]
      rw [if_pos hint2]
    · have hvi2 : isArrVal
          (pyGet (filterKeyStep keep (filterKeyStep keep fields "data") midKey) "items") =
          false := by rw [hIT]; exact hvi
      rw [filterKeyStep_eq_of_notArr keep _ "items" hvi2]
      rcases arr_or_not (pyGet fields midKey) with ⟨vm, hvm⟩ | hvm
      · rw [lastFilteredLen_mid keep midKey fields hvi vm hvm]
        rw [filterKeyStep_pyGet_count_arr keep _ midKey c vm (by rw [hMT]; exact hvm) hcm hc]
        rw [if_pos hint1]
      · have hvm2 : isArrVal (pyGet (filterKeyStep keep fields "data") midKey) = false := by
          rw [hMT]; exact hvm
        rw [filterKeyStep_eq_of_notArr keep _ midKey hvm2]
        rcases arr_or_not (pyGet fields "data") with ⟨vd, hvd⟩ | hvd
        · rw [lastFilteredLen_data keep midKey fields hvi hvm vd hvd]
          rw [filterKeyStep_pyGet_count_arr keep fields "data" c vd hvd hcd hc]
          rw [if_pos hint]
        · rw [lastFilteredLen_none keep midKey fields hvi hvm hvd]
          rw [filterKeyStep_eq_of_notArr keep fields "data" hvd]

/-! ## Theorems -/

/-- Counterexample to C1 as stated: with allowlist `{"w"}` and an
object holding two listed arrays — `data` (one allowlisted element,
filtered length 1) and `items` (filtered length 0) — the final
`count` is 0, the length of the `items` array processed last, not the
length 1 of the filtered `data` array also found in the object; so not
every count field can equal "the filtered array's length" for each
array found. -/
theorem C1_counterexample_multi_array_counts :
    filter_workflows (some ["w"])
        (.obj [("data", .arr [.obj [("id", .str "w")]]), ("items", .arr []),
               ("count", .int 2)]) =
      .obj [("data", .arr [.obj [("id", .str "w")]]), ("items", .arr []),
            ("count", .int 0)] ∧
    (JVal.int 0 ≠ JVal.int 1) :=
  ⟨rfl, by intro h; exact absurd (JVal.int.inj h) (by decide)⟩

/-- C1 (amended): under a configured (nonempty) allowlist, an
array-shaped response is filtered elementwise; a non-array, non-object
response passes through unchanged; for an object, every array found
under `data`, `workflows` (resp. `executions`), `items` retains
exactly the elements whose extracted workflow identifier is allowed,
and every integer-valued `count`/`total`/`totalCount` field is
overwritten with the filtered length of the *last* such key holding an
array (so with a single listed array present, every count equals its
filtered length), remaining unchanged when no listed key holds an
array. -/
theorem C1_allowlist_filtering :
    ∀ a : List String, a ≠ [] →
      (∀ xs, filter_workflows (some a) (.arr xs) =
        .arr (xs.filter (is_allowed_workflow (some a)))) ∧
      (∀ xs, filter_executions (some a) (.arr xs) =
        .arr (xs.filter (is_allowed_execution (some a)))) ∧
      (filter_workflows (some a) .null = .null ∧
        (∀ b, filter_workflows (some a) (.bool b) = .bool b) ∧
        (∀ n, filter_workflows (some a) (.int n) = .int n) ∧
        (∀ s, filter_workflows (some a) (.str s) = .str s)) ∧
      (filter_executions (some a) .null = .null ∧
        (∀ b, filter_executions (some a) (.bool b) = .bool b) ∧
        (∀ n, filter_executions (some a) (.int n) = .int n) ∧
        (∀ s, filter_executions (some a) (.str s) = .str s)) ∧
      (∀ fields k v, (k = "data" ∨ k = "workflows" ∨ k = "items") →
        pyGet fields k = .arr v →
        pyGet (objFields (filter_workflows (some a) (.obj fields))) k =
          .arr (v.filter (is_allowed_workflow (some a)))) ∧
      (∀ fields c, (c = "count" ∨ c = "total" ∨ c = "totalCount") →
        isPyInt (pyGet fields c) = true →
        pyGet (objFields (filter_workflows (some a) (.obj fields))) c =
          (match lastFilteredLen (is_allowed_workflow (some a)) "workflows" fields with
           | some L => JVal.int (Int.ofNat L)
           | none => pyGet fields c)) ∧
      (∀ fields k v, (k = "data" ∨ k = "executions" ∨ k = "items") →
        pyGet fields k = .arr v →
        pyGet (objFields (filter_executions (some a) (.obj fields))) k =
          .arr (v.filter (is_allowed_execution (some a)))) ∧
      (∀ fields c, (c = "count" ∨ c = "total" ∨ c = "totalCount") →
        isPyInt (pyGet fields c) = true →
        pyGet (objFields (filter_executions (some a) (.obj fields))) c =
          (match lastFilteredLen (is_allowed_execution (some a)) "executions" fields with
           | some L => JVal.int (Int.ofNat L)
           | none => pyGet fields c)) := by
  intro a hne
  have hE : a.isEmpty = false := by
    cases a with
    | nil => exact absurd rfl hne
    | cons x xs => rfl
  have hT : alTruthy (some a) = true := by simp [alTruthy, hE]
  have hW : ∀ fields, objFields (filter_workflows (some a) (.obj fields)) =
      List.foldl (filterKeyStep (is_allowed_workflow (some a))) fields
        ["data", "workflows", "items"] := by
    intro fields
    simp [filter_workflows, hT, objFields]
  have hX : ∀ fields, objFields (filter_executions (some a) (.obj fields)) =
      List.foldl (filterKeyStep (is_allowed_execution (some a))) fields
        ["data", "executions", "items"] := by
    intro fields
    simp [filter_executions, hT, objFields]
  refine ⟨?_, ?_, ?_, ?_, ?_, ?_, ?_, ?_⟩
  · intro xs
    simp [filter_workflows, hT]
  · intro xs
    simp [filter_executions, hT]
  · refine ⟨?_, fun b => ?_, fun n => ?_, fun s => ?_⟩ <;> simp [filter_workflows, hT]
  · refine ⟨?_, fun b => ?_, fun n => ?_, fun s => ?_⟩ <;> simp [filter_executions, hT]
  · intro fields k v hk hv
    rw [hW fields]
    rcases hk with rfl | rfl | rfl
    · exact (foldl_filter_block (is_allowed_workflow (some a)) "workflows" (by decide)
        (by decide) (by decide) (by decide) (by decide) fields).1 v hv
    · exact (foldl_filter_block (is_allowed_workflow (some a)) "workflows" (by decide)
        (by decide) (by decide) (by decide) (by decide) fields).2.1 v hv
    · exact (foldl_filter_block (is_allowed_workflow (some a)) "workflows" (by decide)
        (by decide) (by decide) (by decide) (by decide) fields).2.2.1 v hv
  · intro fields c hc hint
    rw [hW fields]
    exact (foldl_filter_block (is_allowed_workflow (some a)) "workflows" (by decide)
      (by decide) (by decide) (by decide) (by decide) fields).2.2.2 c hc hint
  · intro fields k v hk hv
    rw [hX fields]
    rcases hk with rfl | rfl | rfl
    · exact (foldl_filter_block (is_allowed_execution (some a)) "executions" (by decide)
        (by decide) (by decide) (by decide) (by decide) fields).1 v hv
    · exact (foldl_filter_block (is_allowed_execution (some a)) "executions" (by decide)
        (by decide) (by decide) (by decide) (by decide) fields).2.1 v hv
    · exact (foldl_filter_block (is_allowed_execution (some a)) "executions" (by decide)
        (by decide) (by decide) (by decide) (by decide) fields).2.2.1 v hv
  · intro fields c hc hint
    rw [hX fields]
    exact (foldl_filter_block (is_allowed_execution (some a)) "executions" (by decide)
      (by decide) (by decide) (by decide) (by decide) fields).2.2.2 c hc hint

/-- Witness for C1 (end-to-end scenario B): allowlist `{"1"}`, object
`{"data": [{"id":"1"},{"id":"3"}], "count": 2}` — the `data` array
keeps exactly the allowlisted element and `count` becomes 1. -/
theorem C1_allowlist_filtering_witness :
    pyGet (objFields (filter_workflows (some ["1"])
        (.obj [("data", .arr [.obj [("id", .str "1")], .obj [("id", .str "3")]]),
               ("count", .int 2)]))) "data" =
      .arr [.obj [("id", .str "1")]] ∧
    pyGet (objFields (filter_workflows (some ["1"])
        (.obj [("data", .arr [.obj [("id", .str "1")], .obj [("id", .str "3")]]),
               ("count", .int 2)]))) "count" = .int 1 :=
  ⟨(C1_allowlist_filtering ["1"] (by decide)).2.2.2.2.1
      [("data", .arr [.obj [("id", .str "1")], .obj [("id", .str "3")]]), ("count", .int 2)]
      "data" [.obj [("id", .str "1")], .obj [("id", .str "3")]] (Or.inl rfl) rfl,
   (C1_allowlist_filtering ["1"] (by decide)).2.2.2.2.2.1
      [("data", .arr [.obj [("id", .str "1")], .obj [("id", .str "3")]]), ("count", .int 2)]
      "count" (Or.inl rfl) rfl⟩

/-- C3: parsing the allowlist configuration string splits on commas,
strips surrounding whitespace from each segment, and drops blank
segments; an input whose segments are all blank (the empty string
included) parses to `None`, i.e. unrestricted, never to an empty
restriction. -/
theorem C3_parse_allowlist_normalizes :
    parse_allowlist none = none ∧
    (∀ s : String, (∀ seg ∈ pySplit ',' s, pyStrip seg = "") → parse_allowlist (some s) = none) ∧
    (∀ s x : String,
      (∃ l, parse_allowlist (some s) = some l ∧ x ∈ l) ↔
        (x ≠ "" ∧ ∃ seg ∈ pySplit ',' s, pyStrip seg = x)) ∧
    (∀ (s : String) (l : List String), parse_allowlist (some s) = some l → l ≠ []) := by
  refine ⟨rfl, ?_, ?_, ?_⟩
  · intro s h
    have hfil : ((pySplit ',' s).map pyStrip).filter (fun t => !(t == "")) = [] := by
      rw [List.filter_eq_nil_iff]
      intro a ha
      rcases List.mem_map.mp ha with ⟨seg, hseg, rfl⟩
      simp [h seg hseg]
    simp [parse_allowlist, hfil]
  · intro s x
    constructor
    · rintro ⟨l, hl, hx⟩
      simp only [parse_allowlist] at hl
      by_cases hE :
          ((((pySplit ',' s).map pyStrip).filter (fun t => !(t == ""))).dedup).isEmpty = true
      · rw [if_pos hE] at hl; exact absurd hl (by simp)
      · rw [if_neg hE] at hl
        cases hl
        have hx' := List.mem_dedup.mp hx
        rcases List.mem_filter.mp hx' with ⟨hmem, hpred⟩
        refine ⟨by simpa using hpred, ?_⟩
        rcases List.mem_map.mp hmem with ⟨seg, hseg, hstrip⟩
        exact ⟨seg, hseg, hstrip⟩
    · rintro ⟨hxne, seg, hseg, hstrip⟩
      have hx : x ∈ ((((pySplit ',' s).map pyStrip).filter (fun t => !(t == ""))).dedup) := by
        rw [List.mem_dedup]
        exact List.mem_filter.mpr ⟨List.mem_map.mpr ⟨seg, hseg, hstrip⟩, by simpa using hxne⟩
      have hne :
          ¬ ((((pySplit ',' s).map pyStrip).filter (fun t => !(t == ""))).dedup).isEmpty = true := by
        intro h
        rw [List.isEmpty_iff] at h
        rw [h] at hx
        exact absurd hx (List.not_mem_nil x)
      refine ⟨_, ?_, hx⟩
      simp only [parse_allowlist]
      rw [if_neg hne]
  · intro s l hl
    simp only [parse_allowlist] at hl
    by_cases hE :
        ((((pySplit ',' s).map pyStrip).filter (fun t => !(t == ""))).dedup).isEmpty = true
    · rw [if_pos hE] at hl; exact absurd hl (by simp)
    · rw [if_neg hE] at hl
      cases hl
      intro h
      rw [h] at hE
      exact hE rfl

/-- Witness for C3: an allowlist of blank segments parses to `None`,
and `"100, 200 , ,"` contains exactly `100` and `200`. -/
theorem C3_parse_allowlist_normalizes_witness :
    parse_allowlist (some " , ") = none ∧
    (∃ l, parse_allowlist (some "100, 200 , ,") = some l ∧ "200" ∈ l) :=
  ⟨C3_parse_allowlist_normalizes.2.1 " , " (by decide),
   (C3_parse_allowlist_normalizes.2.2.1 "100, 200 , ," "200").mpr
     (by refine ⟨by decide, " 200 ", by decide, by decide⟩)⟩

/-- Taking `m` of an append is unaffected by pre-truncating the right
part to `m`. -/
theorem take_append_take {α : Type} (l x : List α) (m : Nat) :
    (l ++ x.take m).take m = (l ++ x).take m := by
  rw [List.take_append_eq_append_take, List.take_append_eq_append_take, List.take_take]
  congr 1
  rw [min_eq_left (Nat.sub_le m l.length)]

/-- Folding `appendleft` on a `deque(maxlen=m)` from a state not
exceeding the bound keeps the most recent `m` items. -/
theorem foldl_prepend_take {α : Type} (m : Nat) (rs : List α) :
    ∀ s : List α, s.length ≤ m →
      List.foldl (fun acc r => (r :: acc).take m) s rs = (rs.reverse ++ s).take m := by
  induction rs with
  | nil =>
    intro s hs
    simp [List.take_of_length_le hs]
  | cons r rs ih =>
    intro s _
    rw [List.foldl_cons, ih ((r :: s).take m) (by simp [List.length_take]),
      List.reverse_cons, List.append_assoc, List.singleton_append]
    exact take_append_take rs.reverse (r :: s) m

/-- One fold step of repeated `add_entry` calls, used to state the
tracker bound over an arbitrary call sequence. -/
def trackStep (t : RunTracker) (r : DarcyExecutionRecord) : RunTracker :=
  t.add_entry r.workflow_id r.execution_id r.payload r.started_at

/-- C4: over any sequence of `add_entry` calls the tracker holds the
most recent `min(n, maxEntries)` records, most recent first (so never
more than its configured maximum, 200 by default); at capacity an
insertion evicts the oldest (tail) record; and `list_entries` returns
exactly the retained records. In this pure model the snapshot is a
value, so the `list(...)` copy the source takes cannot alias the
internal buffer by construction. -/
theorem C4_tracker_bound :
    defaultMaxEntries = 200 ∧
    (∀ (m : Nat) (rs : List DarcyExecutionRecord),
      (List.foldl trackStep (RunTracker.empty m) rs).list_entries = rs.reverse.take m) ∧
    (∀ (m : Nat) (rs : List DarcyExecutionRecord),
      (List.foldl trackStep (RunTracker.empty m) rs).list_entries.length ≤ m) ∧
    (∀ (t : RunTracker) (w : String) (e : Option String) (p : List (String × JVal))
        (n : PyDatetime),
      0 < t.maxEntries → t.entries.length = t.maxEntries →
      (t.add_entry w e p n).entries = ⟨e, w, p, n⟩ :: t.entries.dropLast) ∧
    (∀ t : RunTracker, t.list_entries = t.entries) := by
  have hfold : ∀ (m : Nat) (rs : List DarcyExecutionRecord),
      (List.foldl trackStep (RunTracker.empty m) rs).entries = rs.reverse.take m := by
    intro m rs
    have hstep : ∀ (t : RunTracker) (r : DarcyExecutionRecord),
        trackStep t r = ⟨t.maxEntries, (r :: t.entries).take t.maxEntries⟩ := by
      intro t r; rfl
    have hmax : ∀ rs' (t : RunTracker), (List.foldl trackStep t rs').maxEntries = t.maxEntries := by
      intro rs'
      induction rs' with
      | nil => intro t; rfl
      | cons r rs' ih => intro t; rw [List.foldl_cons, ih, hstep]
    have key : ∀ (rs' : List DarcyExecutionRecord) (s : List DarcyExecutionRecord),
        s.length ≤ m →
        (List.foldl trackStep ⟨m, s⟩ rs').entries = (rs'.reverse ++ s).take m := by
      intro rs'
      induction rs' with
      | nil =>
        intro s hs
        simp [List.take_of_length_le hs]
      | cons r rs' ih =>
        intro s _
        rw [List.foldl_cons, hstep]
        simp only
        rw [ih ((r :: s).take m) (by simp [List.length_take]),
          List.reverse_cons, List.append_assoc, List.singleton_append]
        exact take_append_take rs'.reverse (r :: s) m

    simpa using key rs [] (by simp)
  refine ⟨rfl, ?_, ?_, ?_, fun _ => rfl⟩
  · intro m rs
    exact hfold m rs
  · intro m rs
    rw [RunTracker.list_entries, hfold m rs, List.length_take]
    exact min_le_left _ _
  · intro t w e p n hpos hlen
    rw [RunTracker.add_entry]
    simp only
    obtain ⟨k, hk⟩ : ∃ k, t.maxEntries = k + 1 := ⟨t.maxEntries - 1, by omega⟩
    rw [hk, List.take_succ_cons, List.dropLast_eq_take, hlen, hk]
    simp

/-- Witness for C4: three insertions into a capacity-2 tracker retain
the two most recent records, newest first; the third insertion evicted
the oldest. -/
theorem C4_tracker_bound_witness :
    (List.foldl trackStep (RunTracker.empty 2)
        [⟨none, "a", [], now0⟩, ⟨none, "b", [], now0⟩, ⟨none, "c", [], now0⟩]).list_entries =
      [⟨none, "c", [], now0⟩, ⟨none, "b", [], now0⟩] ∧
    (RunTracker.add_entry ⟨2, [⟨none, "b", [], now0⟩, ⟨none, "a", [], now0⟩]⟩ "c" none [] now0).entries =
      [⟨none, "c", [], now0⟩, ⟨none, "b", [], now0⟩] :=
  ⟨C4_tracker_bound.2.1 2 [⟨none, "a", [], now0⟩, ⟨none, "b", [], now0⟩, ⟨none, "c", [], now0⟩],
   C4_tracker_bound.2.2.2.1 ⟨2, [⟨none, "b", [], now0⟩, ⟨none, "a", [], now0⟩]⟩ "c" none [] now0
     (by decide) rfl⟩

/-- C7: the translation of an `N8NClientError` into a
`ToolExecutionError` message follows the error-mapping table: a 400
whose original message contains "trigger" (case-insensitively) yields
the fixed trigger message (which contains "missing a trigger node");
any other 400 embeds the tool name and the original message; 401, 403,
404 and 0 yield their fixed messages; any other status embeds the
status code and the original message. -/
theorem C7_error_mapping :
    ∀ (e : N8NClientError) (tool : String),
      (e.status_code = 400 → strContains (strLower (base_message e)) "trigger" = true →
        friendly_error_message e tool =
          "n8n rejected the run: the workflow is missing a trigger node." ∧
        strContains (friendly_error_message e tool) "missing a trigger node" = true) ∧
      (e.status_code = 400 → strContains (strLower (base_message e)) "trigger" = false →
        friendly_error_message e tool =
          "n8n returned a bad request for " ++ tool ++ ": " ++ base_message e) ∧
      (e.status_code = 401 → friendly_error_message e tool = "n8n API rejected the credentials") ∧
      (e.status_code = 403 →
        friendly_error_message e tool = "n8n API denied access to this resource") ∧
      (e.status_code = 404 →
        friendly_error_message e tool = "Requested resource was not found in n8n") ∧
      (e.status_code = 0 → friendly_error_message e tool = "Unable to reach n8n API") ∧
      (e.status_code ≠ 400 → e.status_code ≠ 401 → e.status_code ≠ 403 → e.status_code ≠ 404 →
        e.status_code ≠ 0 →
        friendly_error_message e tool =
          "n8n error " ++ toString e.status_code ++ ": " ++ base_message e) := by
  intro e tool
  refine ⟨?_, ?_, ?_, ?_, ?_, ?_, ?_⟩
  · intro h400 htrig
    rw [friendly_error_message]
    simp only [h400, htrig]
    exact ⟨by rfl, by rfl⟩
  · intro h400 htrig
    rw [friendly_error_message]
    simp [h400, htrig]
  · intro h
    rw [friendly_error_message]
    simp [h]
  · intro h
    rw [friendly_error_message]
    simp [h]
  · intro h
    rw [friendly_error_message]
    simp [h]
  · intro h
    rw [friendly_error_message]
    simp [h]
  · intro h400 h401 h403 h404 h0
    rw [friendly_error_message]
    simp [h400, h401, h403, h404, h0]

/-- Witness for C7: the end-to-end scenario message (HTTP 400,
"Workflow has no Trigger node") maps to the trigger text, and an
HTTP 500 embeds its status and message. -/
theorem C7_error_mapping_witness :
    friendly_error_message ⟨400, ["Workflow has no Trigger node"]⟩ "n8n_run_workflow" =
      "n8n rejected the run: the workflow is missing a trigger node." ∧
    friendly_error_message ⟨500, ["boom"]⟩ "n8n_list_workflows" = "n8n error 500: boom" :=
  ⟨((C7_error_mapping ⟨400, ["Workflow has no Trigger node"]⟩ "n8n_run_workflow").1
      rfl (by rfl)).1,
   (C7_error_mapping ⟨500, ["boom"]⟩ "n8n_list_workflows").2.2.2.2.2.2
      (by decide) (by decide) (by decide) (by decide) (by decide)⟩

/-- C8: the execution identifier extracted from a run response is the
first non-null value among top-level `executionId`, `execution_id`,
`id`, then `data.executionId`, `data.id`, in that order; a top-level
`id` wins regardless of what `data` holds; when none is present (or
the response is not an object) the identifier is absent. -/
theorem C8_extract_execution_id_precedence :
    ∀ fields : List (String × JVal),
      ((pyGet fields "executionId").isNull = false →
        extract_execution_id (.obj fields) = some (pyStr (pyGet fields "executionId"))) ∧
      ((pyGet fields "executionId").isNull = true →
        (pyGet fields "execution_id").isNull = false →
        extract_execution_id (.obj fields) = some (pyStr (pyGet fields "execution_id"))) ∧
      ((pyGet fields "executionId").isNull = true →
        (pyGet fields "execution_id").isNull = true →
        (pyGet fields "id").isNull = false →
        extract_execution_id (.obj fields) = some (pyStr (pyGet fields "id"))) ∧
      (∀ d, (pyGet fields "executionId").isNull = true →
        (pyGet fields "execution_id").isNull = true →
        (pyGet fields "id").isNull = true →
        pyGet fields "data" = .obj d →
        ((pyGet d "executionId").isNull = false →
          extract_execution_id (.obj fields) = some (pyStr (pyGet d "executionId"))) ∧
        ((pyGet d "executionId").isNull = true → (pyGet d "id").isNull = false →
          extract_execution_id (.obj fields) = some (pyStr (pyGet d "id"))) ∧
        ((pyGet d "executionId").isNull = true → (pyGet d "id").isNull = true →
          extract_execution_id (.obj fields) = none)) ∧
      ((pyGet fields "executionId").isNull = true →
        (pyGet fields "execution_id").isNull = true →
        (pyGet fields "id").isNull = true →
        (∀ d, pyGet fields "data" ≠ .obj d) →
        extract_execution_id (.obj fields) = none) ∧
      (∀ v : JVal, objFields v = [] → (v ≠ .obj []) → extract_execution_id v = none) := by
  intro fields
  refine ⟨?_, ?_, ?_, ?_, ?_, ?_⟩
  · intro h1
    rw [extract_execution_id]
    simp [h1]
  · intro h1 h2
    rw [extract_execution_id]
    simp [h1, h2]
  · intro h1 h2 h3
    rw [extract_execution_id]
    simp [h1, h2, h3]
  · intro d h1 h2 h3 hd
    refine ⟨?_, ?_, ?_⟩
    · intro hw1
      rw [extract_execution_id]
      simp [h1, h2, h3, hd, hw1]
    · intro hw1 hw2
      rw [extract_execution_id]
      simp [h1, h2, h3, hd, hw1, hw2]
    · intro hw1 hw2
      rw [extract_execution_id]
      simp [h1, h2, h3, hd, hw1, hw2]
  · intro h1 h2 h3 hd
    rw [extract_execution_id]
    simp only [h1, h2, h3]
    cases hv : pyGet fields "data" with
    | obj d => exact absurd hv (hd d)
    | null => simp
    | bool b => simp
    | int n => simp
    | str s => simp
    | arr xs => simp
  · intro v hv hne
    cases v with
    | obj fs =>
      exact absurd (by rw [show fs = [] from hv]) hne
    | null => rfl
    | bool b => rfl
    | int n => rfl
    | str s => rfl
    | arr xs => rfl

/-- Witness for C8: with both a top-level `id` and a nested
`data.executionId` present, the top-level `id` wins. -/
theorem C8_extract_execution_id_precedence_witness :
    extract_execution_id
        (.obj [("id", .str "top"), ("data", .obj [("executionId", .str "nested")])]) =
      some "top" :=
  (C8_extract_execution_id_precedence
      [("id", .str "top"), ("data", .obj [("executionId", .str "nested")])]).2.2.1
    (by rfl) (by rfl) (by rfl)

/-- C2: with a configured (nonempty) allowlist, calling
`n8n_get_workflow` or `n8n_run_workflow` on a workflow identifier
outside it fails with the `ToolExecutionError` denial, dispatches no
remote call of any kind, and leaves the tracker untouched. -/
theorem C2_denial_before_remote_call :
    ∀ (a : List String) (oracle : RemoteCall → Except N8NClientError JVal)
      (tracker : RunTracker) (now : PyDatetime) (wfId : String)
      (p : List (String × JVal)) (b : Bool),
      a ≠ [] → a.contains wfId = false →
      call_tool (some a) oracle tracker now "n8n_get_workflow" [("workflow_id", .str wfId)] =
        ⟨[], tracker, .error (.toolExecutionError "Workflow is not permitted by the allowlist")⟩ ∧
      call_tool (some a) oracle tracker now "n8n_run_workflow"
          [("workflow_id", .str wfId), ("payload", .obj p), ("track", .bool b)] =
        ⟨[], tracker, .error (.toolExecutionError "Workflow is not permitted by the allowlist")⟩ := by
  intro a oracle tracker now wfId p b hne hmem
  have hempty : a.isEmpty = false := by
    cases a with
    | nil => exact absurd rfl hne
    | cons x xs => rfl
  have hden : ensure_workflow_allowed_denies (some a) wfId = true := by
    rw [ensure_workflow_allowed_denies]
    rw [hempty, hmem]
    rfl
  constructor
  · show translateClientErrors _ (handle_get_workflow _ _ _ _) = _
    rw [handle_get_workflow]
    have hparse : parseGetWorkflowArgs [("workflow_id", .str wfId)] = .ok ⟨wfId⟩ := rfl
    rw [hparse]
    simp only [hden]
    rfl
  · show translateClientErrors _ (handle_run_workflow _ _ _ _ _) = _
    rw [handle_run_workflow]
    have hparse :
        parseRunWorkflowArgs
            [("workflow_id", .str wfId), ("payload", .obj p), ("track", .bool b)] =
          .ok ⟨wfId, p, b⟩ := rfl
    rw [hparse]
    simp only [hden]
    rfl

/-- Witness for C2: allowlist `{"1"}`, workflow `"2"`: both tools are
denied without a remote call. -/
theorem C2_denial_before_remote_call_witness :
    call_tool (some ["1"]) oracle0 tracker0 now0 "n8n_get_workflow"
        [("workflow_id", .str "2")] =
      ⟨[], tracker0, .error (.toolExecutionError "Workflow is not permitted by the allowlist")⟩ ∧
    call_tool (some ["1"]) oracle0 tracker0 now0 "n8n_run_workflow"
        [("workflow_id", .str "2"), ("payload", .obj []), ("track", .bool true)] =
      ⟨[], tracker0, .error (.toolExecutionError "Workflow is not permitted by the allowlist")⟩ :=
  C2_denial_before_remote_call ["1"] oracle0 tracker0 now0 "2" [] true
    (by decide) (by decide)

/-- C5: the keyword names `_handle_list_workflows` and
`_handle_list_executions` pass to the client (`limit`, `cursor`,
`active`/`workflow_id`) do not match the client's keyword-only
parameters (`limit`, `offset`, `active`/`workflow_id`), so both list
tools raise `TypeError` — an unexpected, non-`ToolExecutionError`
failure — before any remote call, even on fully valid arguments. -/
theorem C5_list_tools_raise_type_error :
    kwNamesCompatible registryListWorkflowsKw clientListWorkflowsKw = false ∧
    kwNamesCompatible registryListExecutionsKw clientListExecutionsKw = false ∧
    call_tool none oracle0 tracker0 now0 "n8n_list_workflows" [] =
      ⟨[], tracker0,
        .error (.typeError "list_workflows got an unexpected keyword argument cursor")⟩ ∧
    call_tool none oracle0 tracker0 now0 "n8n_list_executions" [] =
      ⟨[], tracker0,
        .error (.typeError "list_executions got an unexpected keyword argument cursor")⟩ ∧
    isToolExecError (call_tool none oracle0 tracker0 now0 "n8n_list_workflows" []).result = false ∧
    isToolExecError (call_tool none oracle0 tracker0 now0 "n8n_list_executions" []).result = false :=
  ⟨rfl, rfl, rfl, rfl, rfl, rfl⟩

/-- Counterexample to C6 as stated: `n8n_list_workflows` with the
schema-invalid argument `limit = 0` fails with a pydantic
`ValidationError`, which is not a `ToolExecutionError` (it escapes the
registry as an unexpected error); no remote call is made. -/
theorem C6_counterexample_validation_is_not_tool_error :
    parseListWorkflowsArgs [("limit", .int 0)] = .error () ∧
    call_tool none oracle0 tracker0 now0 "n8n_list_workflows" [("limit", .int 0)] =
      ⟨[], tracker0, .error .validationError⟩ ∧
    isToolExecError
      (call_tool none oracle0 tracker0 now0 "n8n_list_workflows" [("limit", .int 0)]).result =
      false :=
  ⟨rfl, rfl, rfl⟩

/-- C6 (amended): for every tool in the catalog, an argument mapping
that fails the tool's schema (unknown key, missing required field, or
`limit` outside `[1, 200]`) aborts the call before any remote
interaction — but it surfaces as an uncaught pydantic
`ValidationError` (an unexpected error), not as a recoverable
`ToolExecutionError`. -/
theorem C6_schema_failure_aborts_before_remote :
    ∀ (al : Option (List String)) (oracle : RemoteCall → Except N8NClientError JVal)
      (tracker : RunTracker) (now : PyDatetime) (args : List (String × JVal)),
      (parseListWorkflowsArgs args = .error () →
        call_tool al oracle tracker now "n8n_list_workflows" args =
          ⟨[], tracker, .error .validationError⟩) ∧
      (parseGetWorkflowArgs args = .error () →
        call_tool al oracle tracker now "n8n_get_workflow" args =
          ⟨[], tracker, .error .validationError⟩) ∧
      (parseRunWorkflowArgs args = .error () →
        call_tool al oracle tracker now "n8n_run_workflow" args =
          ⟨[], tracker, .error .validationError⟩) ∧
      (parseListExecutionsArgs args = .error () →
        call_tool al oracle tracker now "n8n_list_executions" args =
          ⟨[], tracker, .error .validationError⟩) ∧
      (parseGetExecutionArgs args = .error () →
        call_tool al oracle tracker now "n8n_get_execution" args =
          ⟨[], tracker, .error .validationError⟩) ∧
      (parseEmptyArgs args = .error () →
        call_tool al oracle tracker now "darcy_tracking_list" args =
          ⟨[], tracker, .error .validationError⟩) := by
  intro al oracle tracker now args
  refine ⟨?_, ?_, ?_, ?_, ?_, ?_⟩
  · intro h
    show translateClientErrors _ (handle_list_workflows _ _ _ _) = _
    rw [handle_list_workflows, h]
    rfl
  · intro h
    show translateClientErrors _ (handle_get_workflow _ _ _ _) = _
    rw [handle_get_workflow, h]
    rfl
  · intro h
    show translateClientErrors _ (handle_run_workflow _ _ _ _ _) = _
    rw [handle_run_workflow, h]
    rfl
  · intro h
    show translateClientErrors _ (handle_list_executions _ _ _ _) = _
    rw [handle_list_executions, h]
    rfl
  · intro h
    show translateClientErrors _ (handle_get_execution _ _ _ _) = _
    rw [handle_get_execution, h]
    rfl
  · intro h
    show translateClientErrors _ (handle_tracking_list _ _) = _
    rw [handle_tracking_list, h]
    rfl

/-- Witness for C6: an out-of-bounds `limit`, a missing required
`workflow_id`, and an unknown key each abort before any remote call. -/
theorem C6_schema_failure_aborts_before_remote_witness :
    call_tool none oracle0 tracker0 now0 "n8n_list_workflows" [("limit", .int 201)] =
      ⟨[], tracker0, .error .validationError⟩ ∧
    call_tool none oracle0 tracker0 now0 "n8n_get_workflow" [] =
      ⟨[], tracker0, .error .validationError⟩ ∧
    call_tool none oracle0 tracker0 now0 "n8n_get_execution" [("bogus", .int 1)] =
      ⟨[], tracker0, .error .validationError⟩ :=
  ⟨(C6_schema_failure_aborts_before_remote none oracle0 tracker0 now0
      [("limit", .int 201)]).1 (by rfl),
   (C6_schema_failure_aborts_before_remote none oracle0 tracker0 now0 []).2.1 (by rfl),
   (C6_schema_failure_aborts_before_remote none oracle0 tracker0 now0
      [("bogus", .int 1)]).2.2.2.2.1 (by rfl)⟩

/-- Counterexample to C9 as stated: a formatted tracker record keys
its fields `workflow_id`/`execution_id`/`payload`/`started_at`
(snake_case), not the claimed `workflowId`/`startedAt`: the camelCase
keys are absent from the rendered object. -/
theorem C9_counterexample_keys_are_snake_case :
    formatTrackingEntry ⟨some "exec-7", "42", [("x", .int 1)], now0⟩ =
      .obj [("workflow_id", .str "42"), ("execution_id", .str "exec-7"),
            ("payload", .obj [("x", .int 1)]),
            ("started_at", .str "2024-01-02T03:04:05+00:00")] ∧
    pyGet (objFields (formatTrackingEntry ⟨some "exec-7", "42", [("x", .int 1)], now0⟩))
        "workflowId" = .null ∧
    pyGet (objFields (formatTrackingEntry ⟨some "exec-7", "42", [("x", .int 1)], now0⟩))
        "startedAt" = .null ∧
    pyGet (objFields (formatTrackingEntry ⟨some "exec-7", "42", [("x", .int 1)], now0⟩))
        "workflow_id" = .str "42" :=
  ⟨rfl, rfl, rfl, rfl⟩

/-- C9 (amended): `darcy_tracking_list` rejects any non-empty argument
object (pydantic `extra = "forbid"` on an empty model) and returns
every currently held tracker record, formatted with the snake_case
keys `workflow_id`, `execution_id`, `payload` and `started_at`, the
last rendering the record's creation timestamp in ISO-8601 form. -/
theorem C9_tracking_list_rejects_args_and_formats :
    ∀ (al : Option (List String)) (oracle : RemoteCall → Except N8NClientError JVal)
      (tracker : RunTracker) (now : PyDatetime) (args : List (String × JVal)),
      (args ≠ [] →
        call_tool al oracle tracker now "darcy_tracking_list" args =
          ⟨[], tracker, .error .validationError⟩) ∧
      (call_tool al oracle tracker now "darcy_tracking_list" [] =
        ⟨[], tracker, .ok (.arr (tracker.list_entries.map formatTrackingEntry))⟩) ∧
      (∀ r : DarcyExecutionRecord,
        formatTrackingEntry r =
          .obj [("workflow_id", .str r.workflow_id),
                ("execution_id", match r.execution_id with | some e => .str e | none => .null),
                ("payload", .obj r.payload),
                ("started_at", .str (isoformatUTC r.started_at))]) := by
  intro al oracle tracker now args
  refine ⟨?_, by rfl, fun r => rfl⟩
  intro hne
  have h : parseEmptyArgs args = .error () := by
    rw [parseEmptyArgs]
    cases args with
    | nil => exact absurd rfl hne
    | cons kv rest => rfl
  show translateClientErrors _ (handle_tracking_list _ _) = _
  rw [handle_tracking_list, h]
  rfl

/-- Witness for C9: a nonempty argument object is rejected, and a
one-record tracker lists exactly its formatted record. -/
theorem C9_tracking_list_rejects_args_and_formats_witness :
    call_tool none oracle0 tracker0 now0 "darcy_tracking_list" [("x", .int 1)] =
      ⟨[], tracker0, .error .validationError⟩ ∧
    call_tool none oracle0 ⟨200, [⟨some "e1", "42", [], now0⟩]⟩ now0 "darcy_tracking_list" [] =
      ⟨[], ⟨200, [⟨some "e1", "42", [], now0⟩]⟩,
        .ok (.arr [formatTrackingEntry ⟨some "e1", "42", [], now0⟩])⟩ :=
  ⟨(C9_tracking_list_rejects_args_and_formats none oracle0 tracker0 now0 [("x", .int 1)]).1
      (by simp),
   (C9_tracking_list_rejects_args_and_formats none oracle0
      ⟨200, [⟨some "e1", "42", [], now0⟩]⟩ now0 []).2.1⟩

/-- C10: with a configured (nonempty) allowlist, `n8n_get_execution`
returns the fetched execution whenever no workflow identifier can be
extracted from it; and whenever it raises its allowlist denial, a
workflow identifier was actually extracted and lies outside the
allowlist. -/
theorem C10_get_execution_denial_requires_extracted_id :
    ∀ (a : List String) (oracle : RemoteCall → Except N8NClientError JVal)
      (tracker : RunTracker) (now : PyDatetime) (execId : String) (payload : JVal),
      a ≠ [] →
      oracle (RemoteCall.getExecution execId) = .ok payload →
      ((extract_workflow_id_from_execution payload = none →
        call_tool (some a) oracle tracker now "n8n_get_execution"
            [("execution_id", .str execId)] =
          ⟨[RemoteCall.getExecution execId], tracker, .ok payload⟩) ∧
      (∀ msg,
        (call_tool (some a) oracle tracker now "n8n_get_execution"
            [("execution_id", .str execId)]).result = .error (.toolExecutionError msg) →
        ∃ w, extract_workflow_id_from_execution payload = some w ∧ a.contains w = false)) := by
  intro a oracle tracker now execId payload hne horacle
  have hred : call_tool (some a) oracle tracker now "n8n_get_execution"
      [("execution_id", .str execId)] =
      translateClientErrors "n8n_get_execution"
        (handle_get_execution (some a) oracle tracker [("execution_id", .str execId)]) := rfl
  have hparse : parseGetExecutionArgs [("execution_id", .str execId)] = .ok ⟨execId⟩ := rfl
  constructor
  · intro hwf
    rw [hred, handle_get_execution, hparse]
    simp only [horacle, hwf]
    simp [optStrTruthy, translateClientErrors]
  · intro msg hmsg
    rw [hred, handle_get_execution, hparse] at hmsg
    simp only [horacle] at hmsg
    cases hwf : extract_workflow_id_from_execution payload with
    | none =>
      rw [hwf] at hmsg
      simp [translateClientErrors, optStrTruthy] at hmsg
    | some w =>
      rw [hwf] at hmsg
      by_cases hguard :
          (alTruthy (some a) && optStrTruthy (some w) &&
            !(((some a : Option (List String)).getD []).contains ((some w : Option String).getD ""))) = true
      · refine ⟨w, rfl, ?_⟩
        have : (!a.contains w) = true := by
          have := hguard
          simp only [Option.getD] at this
          exact (Bool.and_elim_right this)
        simpa using this
      · rw [Bool.not_eq_true] at hguard
        rw [hguard] at hmsg
        simp [translateClientErrors] at hmsg

/-- Witness for C10: a fetched execution carrying no workflow
identifier is returned even under an allowlist; one carrying an
outside identifier is denied, and the denial implies the extracted
identifier is outside the allowlist. -/
theorem C10_get_execution_denial_requires_extracted_id_witness :
    call_tool (some ["1"]) (fun _ => .ok (.obj [("id", .str "e9")])) tracker0 now0
        "n8n_get_execution" [("execution_id", .str "e9")] =
      ⟨[RemoteCall.getExecution "e9"], tracker0, .ok (.obj [("id", .str "e9")])⟩ ∧
    (∃ w, extract_workflow_id_from_execution (.obj [("workflowId", .str "2")]) = some w ∧
      (["1"].contains w) = false) :=
  ⟨(C10_get_execution_denial_requires_extracted_id ["1"]
      (fun _ => .ok (.obj [("id", .str "e9")])) tracker0 now0 "e9" (.obj [("id", .str "e9")])
      (by decide) rfl).1 rfl,
   (C10_get_execution_denial_requires_extracted_id ["1"]
      (fun _ => .ok (.obj [("workflowId", .str "2")])) tracker0 now0 "e7"
      (.obj [("workflowId", .str "2")]) (by decide) rfl).2
      "Execution belongs to a workflow outside the allowlist" (by rfl)⟩
